import Mathlib

/-!
Verification of the SmartQueue occupancy/queue controller.

This file is a shallow embedding of the device-resident state machine of the
SmartQueue system (src/7_hci/1_queue_state.ino, 5_rfid_handler.ino,
6_web_server.ino, 0_utils helpers) together with theorems settling the
behavioural claims about it.

Modelling conventions:
* the C arrays `inLibrary[] / inCount`, `waitQueue[] / queueCount` and
  `dispensedLog[] / dispensedCount` are Lean lists (the counter is the length);
* `millis()` is an explicit `now : Nat` argument threaded into each operation;
* the C idiom of returning `-1` as a not-found sentinel from the linear index
  scans is rendered as `Option Nat`; `getFreeSlots` stays an `Int`, exactly as
  the source computes `(int)MAX_SLOTS - (int)inCount`;
* hardware feedback (LED, buzzer, servo motion), serial prints and the status
  message string are side effects irrelevant to the claims and are dropped.
-/

namespace SmartQueue

/-- `MAX_SLOTS` from config.h: maximum simultaneous people in the library. -/
def MAX_SLOTS : Nat := 3

/-- `WAIT_CAPACITY` from config.h: maximum people in the waiting queue. -/
def WAIT_CAPACITY : Nat := 10

/-- `CLAIM_TIMEOUT_MS` from 1_queue_state.ino: `15UL * 60UL * 1000UL`. -/
def CLAIM_TIMEOUT_MS : Nat := 15 * 60 * 1000

/-- Capacity of `dispensedLog` from 1_queue_state.ino:
`String dispensedLog[WAIT_CAPACITY + MAX_SLOTS + 20]`. -/
def DISPENSED_LOG_CAP : Nat := WAIT_CAPACITY + MAX_SLOTS + 20

/-- The global mutable state of 1_queue_state.ino. -/
structure DeviceState where
  /-- `inLibrary[] / inCount`: cards currently in the library. -/
  inLibrary : List String
  /-- `waitQueue[] / queueCount`: cards waiting to enter. -/
  waitQueue : List String
  /-- `lastScanEvent`: classified outcome of the most recent scan. -/
  lastScanEvent : String
  /-- `lastScannedCard`: identifier of the most recent scan. -/
  lastScannedCard : String
  /-- `lastScanTimestamp`: millis() of the most recent scan. -/
  lastScanTimestamp : Nat
  /-- `queueClaimStartMillis`: 0 when no countdown is running. -/
  queueClaimStartMillis : Nat
  /-- `queueClaimUid`: identifier tracked by the reservation claim. -/
  queueClaimUid : String
  /-- `queueClaimConfirmed`: true after the user confirmed entry intention. -/
  queueClaimConfirmed : Bool
  /-- `dispensedLog[] / dispensedCount`: cards that already got a dispense. -/
  dispensedLog : List String
deriving DecidableEq

/-- State at power-up: every array empty, every scalar zeroed. -/
def initState : DeviceState :=
  { inLibrary := [], waitQueue := [], lastScanEvent := "",
    lastScannedCard := "", lastScanTimestamp := 0,
    queueClaimStartMillis := 0, queueClaimUid := "",
    queueClaimConfirmed := false, dispensedLog := [] }

/-- The linear scan shared by `indexOfInLibrary` / `indexOfWaitQueue` /
`getCardQueuePosition`: first index whose element equals `id`, the C `-1`
sentinel rendered as `none`. -/
def findIdx : List String → String → Option Nat
  | [], _ => none
  | x :: xs, id => if x = id then some 0 else (findIdx xs id).map (· + 1)

/-- `getFreeSlots` from 0_utils: `(int)MAX_SLOTS - (int)inCount`. -/
def getFreeSlots (s : DeviceState) : Int :=
  (MAX_SLOTS : Int) - (s.inLibrary.length : Int)

/-- `getCardQueuePosition` from 0_utils: 1-based queue position, or -1. -/
def getCardQueuePosition (s : DeviceState) (cardId : String) : Int :=
  match findIdx s.waitQueue cardId with
  | some i => (i : Int) + 1
  | none => -1

/-- `addToLibrary`: fails if the library is full or the card is present. -/
def addToLibrary (s : DeviceState) (id : String) : Bool × DeviceState :=
  if MAX_SLOTS ≤ s.inLibrary.length then (false, s)
  else if (findIdx s.inLibrary id).isSome then (false, s)
  else (true, { s with inLibrary := s.inLibrary ++ [id] })

/-- `removeFromLibrary`: erase at the found index, shifting the rest down. -/
def removeFromLibrary (s : DeviceState) (id : String) : Bool × DeviceState :=
  match findIdx s.inLibrary id with
  | none => (false, s)
  | some idx => (true, { s with inLibrary := s.inLibrary.eraseIdx idx })

/-- `enqueueWait`: fails if the queue is full or the card is already queued. -/
def enqueueWait (s : DeviceState) (id : String) : Bool × DeviceState :=
  if WAIT_CAPACITY ≤ s.waitQueue.length then (false, s)
  else if (findIdx s.waitQueue id).isSome then (false, s)
  else (true, { s with waitQueue := s.waitQueue ++ [id] })

/-- `removeFromWaitByIndex`: erase at `idx`, shifting the rest down. -/
def removeFromWaitByIndex (s : DeviceState) (idx : Nat) : Bool × DeviceState :=
  if s.waitQueue.length ≤ idx then (false, s)
  else (true, { s with waitQueue := s.waitQueue.eraseIdx idx })

/-- `setScanEvent`: record the most recent scan for the frontend. -/
def setScanEvent (s : DeviceState) (event cardId : String) (now : Nat) :
    DeviceState :=
  { s with lastScanEvent := event, lastScannedCard := cardId,
           lastScanTimestamp := now }

/-- The claim-clearing triple assignment that 1_queue_state.ino repeats:
`queueClaimStartMillis = 0; queueClaimUid = ""; queueClaimConfirmed = false`. -/
def clearClaim (s : DeviceState) : DeviceState :=
  { s with queueClaimStartMillis := 0, queueClaimUid := "",
           queueClaimConfirmed := false }

/-- `handleRFID` from 5_rfid_handler.ino, the decision core once a card `id`
has been read at time `now` (reader I/O, feedback and the debounce delay are
external). -/
def handleRFID (s : DeviceState) (id : String) (now : Nat) : DeviceState :=
  match findIdx s.inLibrary id with
  | some _ =>
    -- Case 1: card is in the library - this is a person leaving
    setScanEvent (removeFromLibrary s id).2 "left" id now
  | none =>
    match findIdx s.waitQueue id with
    | some qIdx =>
      -- Case 2: card is in the waiting queue - try to move to library
      let slotsNow := getFreeSlots s
      if (qIdx : Int) < slotsNow then
        let s1 := (removeFromWaitByIndex s qIdx).2
        let s2 := (addToLibrary s1 id).2
        setScanEvent s2 "entered_from_queue" id now
      else
        setScanEvent s "already_queued" id now
    | none =>
      -- Case 3: new card - not in library or queue
      let slotsNow := getFreeSlots s
      if (s.waitQueue.length : Int) < slotsNow then
        setScanEvent (addToLibrary s id).2 "entered" id now
      else
        let r := enqueueWait s id
        if r.1 then setScanEvent r.2 "queued" id now
        else setScanEvent r.2 "denied" id now

/-- `pumpQueueReservation` from 1_queue_state.ino at tick time `now`. -/
def pumpQueueReservation (s : DeviceState) (now : Nat) : DeviceState :=
  -- Only applicable when there is a waiting queue and at least one free slot
  if s.waitQueue.length = 0 ∨ getFreeSlots s ≤ 0 then clearClaim s
  else
    -- Current first in line
    let currentUid := s.waitQueue.headI
    -- Start or reset reservation timer when the head changes
    if s.queueClaimUid ≠ currentUid then
      { s with queueClaimUid := currentUid, queueClaimStartMillis := 0,
               queueClaimConfirmed := false }
    -- Only enforce timeout if timer was started
    else if ¬ s.queueClaimConfirmed ∨ s.queueClaimStartMillis = 0 then s
    -- Check timeout
    else if 0 < s.queueClaimStartMillis ∧
        CLAIM_TIMEOUT_MS < now - s.queueClaimStartMillis then
      clearClaim (removeFromWaitByIndex s 0).2
    else s

/-- Iterated reservation ticks: one `pumpQueueReservation` per loop pass. -/
def pumpTicks (s : DeviceState) (ticks : List Nat) : DeviceState :=
  ticks.foldl pumpQueueReservation s

/-- `resetQueueClaimTimer` from 1_queue_state.ino: confirm entry intention for
the current queue head, starting the 15-minute countdown at `now`. -/
def resetQueueClaimTimer (s : DeviceState) (uid : String) (now : Nat) :
    Bool × DeviceState :=
  if s.waitQueue.length = 0 then (false, s)
  else if s.waitQueue.headI ≠ uid then (false, s)
  else if getFreeSlots s ≤ 0 then (false, s)
  else (true, { s with queueClaimStartMillis := now,
                       queueClaimConfirmed := true, queueClaimUid := uid })

/-- The deadline implied by a running countdown: start + `CLAIM_TIMEOUT_MS`. -/
def claimDeadline (s : DeviceState) : Nat :=
  s.queueClaimStartMillis + CLAIM_TIMEOUT_MS

/-- `clearEntryConfirmation` from 1_queue_state.ino. -/
def clearEntryConfirmation (s : DeviceState) (id : String) : DeviceState :=
  if s.queueClaimUid = id then clearClaim s else s

/-- `hasDispensedBefore` from 1_queue_state.ino: linear membership scan. -/
def hasDispensedBefore (s : DeviceState) (id : String) : Bool :=
  (findIdx s.dispensedLog id).isSome

/-- `recordDispenseForCard` from 1_queue_state.ino. -/
def recordDispenseForCard (s : DeviceState) (id : String) :
    Bool × DeviceState :=
  if hasDispensedBefore s id then (false, s)
  else if s.dispensedLog.length < DISPENSED_LOG_CAP then
    (true, { s with dispensedLog := s.dispensedLog ++ [id] })
  else (false, s)

/-- Iterated dispense recordings. -/
def recordDispenses (s : DeviceState) (ids : List String) : DeviceState :=
  ids.foldl (fun t id => (recordDispenseForCard t id).2) s

/-- The `/api/queue/leave` branch of `handleClient` in 6_web_server.ino:
with a non-empty uid, look it up in the queue and remove it by index. -/
def apiQueueLeave (s : DeviceState) (uid : String) : Bool × DeviceState :=
  if 0 < uid.length then
    match findIdx s.waitQueue uid with
    | some qIdx => removeFromWaitByIndex s qIdx
    | none => (false, s)
  else (false, s)

/-- The snapshot object serialized by `buildStateJson` in 6_web_server.ino. -/
structure Snapshot where
  freeSlots : Int
  inCount : Nat
  maxSlots : Nat
  queueCount : Nat
  lastScanEvent : String
  lastScannedCard : String
  lastScanTime : Nat
  lastCardQueuePosition : Int
  inList : List String
  queueList : List String
  t : Nat
deriving DecidableEq

/-- `buildStateJson` from 6_web_server.ino, serializing state `s` at `now`. -/
def buildStateJson (s : DeviceState) (now : Nat) : Snapshot :=
  { freeSlots := (MAX_SLOTS : Int) - (s.inLibrary.length : Int),
    inCount := s.inLibrary.length,
    maxSlots := MAX_SLOTS,
    queueCount := s.waitQueue.length,
    lastScanEvent := s.lastScanEvent,
    lastScannedCard := s.lastScannedCard,
    lastScanTime := s.lastScanTimestamp,
    lastCardQueuePosition := getCardQueuePosition s s.lastScannedCard,
    inList := s.inLibrary,
    queueList := s.waitQueue,
    t := now }

/-- A viewer-initiated or reader-initiated state transition of the device. -/
inductive Request where
  | scan (id : String) (now : Nat)
  | leave (uid : String)
deriving DecidableEq

/-- Apply one request to the device state. -/
def applyRequest (s : DeviceState) : Request → DeviceState
  | .scan id now => handleRFID s id now
  | .leave uid => (apiQueueLeave s uid).2

/-- Run a sequence of requests from the initial empty state. -/
def runRequests (evs : List Request) : DeviceState :=
  evs.foldl applyRequest initState

/-- Run a sequence of scan events from the initial empty state. -/
def runScans (scans : List (String × Nat)) : DeviceState :=
  scans.foldl (fun s p => handleRFID s p.1 p.2) initState

/-- Modelled from the spec: the viewer Stream Manager event-derivation state
(`frontend/src/app/lib/sse/StreamManager.ts`, a module absent from the
sources; only its consumer `useSmartQueue.ts` is present). Per the spec, the
manager remembers the last scan-outcome timestamp it has seen in order to
de-duplicate discrete scan events across snapshots. -/
structure ManagerState where
  lastSeenScanTs : Option Nat
deriving DecidableEq

/-- Modelled from the spec: on each received snapshot the manager republishes
the full projection unconditionally, and emits a discrete `scan:event` only
if the snapshot's scan-outcome timestamp differs from the last one seen,
updating the remembered timestamp. Returns the new manager state and whether
a `scan:event` was emitted. -/
def processSnapshot (m : ManagerState) (snap : Snapshot) :
    ManagerState × Bool :=
  if m.lastSeenScanTs = some snap.lastScanTime then (m, false)
  else ({ lastSeenScanTs := some snap.lastScanTime }, true)

/-! ### Helper lemmas about the linear index scan -/

theorem findIdx_eq_none_iff (l : List String) (id : String) :
    findIdx l id = none ↔ id ∉ l := by
  induction l with
  | nil => simp [findIdx]
  | cons x xs ih =>
    by_cases hx : x = id
    · simp [findIdx, hx]
    · simp only [findIdx, hx, if_false, List.mem_cons, Option.map_eq_none']
      rw [ih]
      constructor
      · intro h hmem
        rcases hmem with h1 | h2
        · exact hx h1.symm
        · exact h h2
      · intro h hmem
        exact h (Or.inr hmem)

theorem findIdx_isSome_iff (l : List String) (id : String) :
    (findIdx l id).isSome ↔ id ∈ l := by
  rw [Option.isSome_iff_ne_none, ne_eq, findIdx_eq_none_iff]
  exact not_not

theorem findIdx_some_lt_length (l : List String) (id : String) (i : Nat)
    (h : findIdx l id = some i) : i < l.length := by
  induction l generalizing i with
  | nil => simp [findIdx] at h
  | cons x xs ih =>
    by_cases hx : x = id
    · simp [findIdx, hx] at h
      subst h
      simp
    · simp only [findIdx, hx, if_false, Option.map_eq_some'] at h
      obtain ⟨j, hj, rfl⟩ := h
      have := ih j hj
      simp only [List.length_cons]
      omega

theorem findIdx_eraseIdx_eq_erase (l : List String) (id : String) (i : Nat)
    (h : findIdx l id = some i) : l.eraseIdx i = l.erase id := by
  induction l generalizing i with
  | nil => simp [findIdx] at h
  | cons x xs ih =>
    by_cases hx : x = id
    · simp [findIdx, hx] at h
      subst h
      subst hx
      simp [List.eraseIdx, List.erase_cons_head]
    · simp only [findIdx, hx, if_false, Option.map_eq_some'] at h
      obtain ⟨j, hj, rfl⟩ := h
      have hbe : (x == id) = false := by
        simp [hx]
      simp [List.eraseIdx, List.erase_cons, hbe, ih j hj]

theorem findIdx_some_mem (l : List String) (id : String) (i : Nat)
    (h : findIdx l id = some i) : id ∈ l := by
  rw [← findIdx_isSome_iff, h]
  rfl

theorem findIdx_getElem (l : List String) (id : String) (i : Nat)
    (h : findIdx l id = some i) (hi : i < l.length) : l[i] = id := by
  induction l generalizing i with
  | nil => simp [findIdx] at h
  | cons x xs ih =>
    by_cases hx : x = id
    · simp [findIdx, hx] at h
      subst h
      simpa using hx
    · simp only [findIdx, hx, if_false, Option.map_eq_some'] at h
      obtain ⟨j, hj, rfl⟩ := h
      have hj' : j < xs.length := findIdx_some_lt_length xs id j hj
      simpa using ih j hj hj'

/-! ### Dispatch lemmas: the effect of each branch of handleRFID -/

theorem handleRFID_left (s : DeviceState) (id : String) (now i : Nat)
    (h : findIdx s.inLibrary id = some i) :
    (handleRFID s id now).inLibrary = s.inLibrary.erase id ∧
    (handleRFID s id now).waitQueue = s.waitQueue ∧
    (handleRFID s id now).lastScanEvent = "left" ∧
    (handleRFID s id now).lastScannedCard = id ∧
    (handleRFID s id now).lastScanTimestamp = now := by
  simp only [handleRFID, removeFromLibrary, h]
  simp [setScanEvent, findIdx_eraseIdx_eq_erase s.inLibrary id i h]

theorem handleRFID_promote (s : DeviceState) (id : String) (now q : Nat)
    (hlib : findIdx s.inLibrary id = none)
    (hq : findIdx s.waitQueue id = some q)
    (hlt : (q : Int) < getFreeSlots s) :
    (handleRFID s id now).inLibrary = s.inLibrary ++ [id] ∧
    (handleRFID s id now).waitQueue = s.waitQueue.erase id ∧
    (handleRFID s id now).lastScanEvent = "entered_from_queue" ∧
    (handleRFID s id now).lastScannedCard = id ∧
    (handleRFID s id now).lastScanTimestamp = now := by
  have hqlen : q < s.waitQueue.length := findIdx_some_lt_length _ _ _ hq
  have hlib_lt : s.inLibrary.length < MAX_SLOTS := by
    have hq0 : (0 : Int) ≤ (q : Int) := Int.natCast_nonneg q
    have hfree : 0 < getFreeSlots s := lt_of_le_of_lt hq0 hlt
    unfold getFreeSlots at hfree
    omega
  simp only [handleRFID, hlib, hq, hlt, if_true, removeFromWaitByIndex,
    addToLibrary]
  rw [if_neg (by omega : ¬ s.waitQueue.length ≤ q)]
  simp only [if_neg (by omega : ¬ MAX_SLOTS ≤ s.inLibrary.length)]
  rw [if_neg (by simp [hlib] : ¬ (findIdx s.inLibrary id).isSome = true)]
  simp [setScanEvent, findIdx_eraseIdx_eq_erase s.waitQueue id q hq]

theorem handleRFID_already_queued (s : DeviceState) (id : String) (now q : Nat)
    (hlib : findIdx s.inLibrary id = none)
    (hq : findIdx s.waitQueue id = some q)
    (hge : ¬ (q : Int) < getFreeSlots s) :
    (handleRFID s id now).inLibrary = s.inLibrary ∧
    (handleRFID s id now).waitQueue = s.waitQueue ∧
    (handleRFID s id now).lastScanEvent = "already_queued" ∧
    (handleRFID s id now).lastScannedCard = id ∧
    (handleRFID s id now).lastScanTimestamp = now := by
  simp only [handleRFID, hlib, hq, hge, if_false]
  simp [setScanEvent]

theorem handleRFID_entered (s : DeviceState) (id : String) (now : Nat)
    (hlib : findIdx s.inLibrary id = none)
    (hq : findIdx s.waitQueue id = none)
    (hlt : (s.waitQueue.length : Int) < getFreeSlots s) :
    (handleRFID s id now).inLibrary = s.inLibrary ++ [id] ∧
    (handleRFID s id now).waitQueue = s.waitQueue ∧
    (handleRFID s id now).lastScanEvent = "entered" ∧
    (handleRFID s id now).lastScannedCard = id ∧
    (handleRFID s id now).lastScanTimestamp = now := by
  have hlib_lt : s.inLibrary.length < MAX_SLOTS := by
    have hq0 : (0 : Int) ≤ (s.waitQueue.length : Int) :=
      Int.natCast_nonneg s.waitQueue.length
    have hfree : 0 < getFreeSlots s := lt_of_le_of_lt hq0 hlt
    unfold getFreeSlots at hfree
    omega
  simp only [handleRFID, hlib, hq, hlt, if_true, addToLibrary]
  simp only [if_neg (by omega : ¬ MAX_SLOTS ≤ s.inLibrary.length)]
  simp [setScanEvent]

theorem handleRFID_queued (s : DeviceState) (id : String) (now : Nat)
    (hlib : findIdx s.inLibrary id = none)
    (hq : findIdx s.waitQueue id = none)
    (hge : ¬ (s.waitQueue.length : Int) < getFreeSlots s)
    (hcap : s.waitQueue.length < WAIT_CAPACITY) :
    (handleRFID s id now).inLibrary = s.inLibrary ∧
    (handleRFID s id now).waitQueue = s.waitQueue ++ [id] ∧
    (handleRFID s id now).lastScanEvent = "queued" ∧
    (handleRFID s id now).lastScannedCard = id ∧
    (handleRFID s id now).lastScanTimestamp = now := by
  simp only [handleRFID, hlib, hq, hge, if_false, enqueueWait]
  rw [if_neg (by omega : ¬ WAIT_CAPACITY ≤ s.waitQueue.length)]
  simp [setScanEvent]

theorem handleRFID_denied (s : DeviceState) (id : String) (now : Nat)
    (hlib : findIdx s.inLibrary id = none)
    (hq : findIdx s.waitQueue id = none)
    (hge : ¬ (s.waitQueue.length : Int) < getFreeSlots s)
    (hcap : WAIT_CAPACITY ≤ s.waitQueue.length) :
    (handleRFID s id now).inLibrary = s.inLibrary ∧
    (handleRFID s id now).waitQueue = s.waitQueue ∧
    (handleRFID s id now).lastScanEvent = "denied" ∧
    (handleRFID s id now).lastScannedCard = id ∧
    (handleRFID s id now).lastScanTimestamp = now := by
  simp only [handleRFID, hlib, hq, hge, if_false, enqueueWait]
  rw [if_pos hcap]
  simp [setScanEvent]

/-! ### Effect of the api leave handler -/

theorem apiQueueLeave_found (s : DeviceState) (uid : String) (q : Nat)
    (hu : 0 < uid.length) (hq : findIdx s.waitQueue uid = some q) :
    apiQueueLeave s uid =
      (true, { s with waitQueue := s.waitQueue.erase uid }) := by
  have hlen := findIdx_some_lt_length _ _ _ hq
  simp only [apiQueueLeave, hq, removeFromWaitByIndex]
  rw [if_pos hu, if_neg (by omega : ¬ s.waitQueue.length ≤ q)]
  rw [findIdx_eraseIdx_eq_erase _ _ _ hq]

theorem apiQueueLeave_notfound (s : DeviceState) (uid : String)
    (hq : findIdx s.waitQueue uid = none) :
    apiQueueLeave s uid = (false, s) := by
  simp only [apiQueueLeave, hq]
  by_cases hu : 0 < uid.length
  · rw [if_pos hu]
  · rw [if_neg hu]

/-! ### The controller invariant and its preservation -/

/-- Bounded, duplicate-free, disjoint collections. -/
def Inv (s : DeviceState) : Prop :=
  s.inLibrary.length ≤ MAX_SLOTS ∧ s.waitQueue.length ≤ WAIT_CAPACITY ∧
  s.inLibrary.Nodup ∧ s.waitQueue.Nodup ∧
  ∀ x, x ∈ s.inLibrary → x ∉ s.waitQueue

theorem inv_init : Inv initState := by
  simp [Inv, initState]

theorem handleRFID_preserves_inv (s : DeviceState) (id : String) (now : Nat)
    (h : Inv s) : Inv (handleRFID s id now) := by
  obtain ⟨hl1, hl2, hn1, hn2, hdisj⟩ := h
  unfold Inv
  rcases hfl : findIdx s.inLibrary id with _ | i
  · rcases hfq : findIdx s.waitQueue id with _ | q
    · -- Case 3: new card
      have hid_lib : id ∉ s.inLibrary := (findIdx_eq_none_iff _ _).mp hfl
      have hid_q : id ∉ s.waitQueue := (findIdx_eq_none_iff _ _).mp hfq
      by_cases hlt : (s.waitQueue.length : Int) < getFreeSlots s
      · obtain ⟨e1, e2, _⟩ := handleRFID_entered s id now hfl hfq hlt
        have hlib_lt : s.inLibrary.length < MAX_SLOTS := by
          simp only [getFreeSlots] at hlt
          omega
        rw [e1, e2]
        refine ⟨by simp; omega, hl2, ?_, hn2, ?_⟩
        · exact hn1.append (List.nodup_singleton id)
            (fun x hx hmem => by simp at hmem; subst hmem; exact hid_lib hx)
        · intro x hx
          rcases List.mem_append.mp hx with hx1 | hx2
          · exact hdisj x hx1
          · simp at hx2
            subst hx2
            exact hid_q
      · by_cases hcap : s.waitQueue.length < WAIT_CAPACITY
        · obtain ⟨e1, e2, _⟩ := handleRFID_queued s id now hfl hfq hlt hcap
          rw [e1, e2]
          refine ⟨hl1, by simp; omega, hn1, ?_, ?_⟩
          · exact hn2.append (List.nodup_singleton id)
              (fun x hx hmem => by simp at hmem; subst hmem; exact hid_q hx)
          · intro x hx hmem
            rcases List.mem_append.mp hmem with h1 | h2
            · exact hdisj x hx h1
            · simp at h2
              subst h2
              exact hid_lib hx
        · obtain ⟨e1, e2, _⟩ :=
            handleRFID_denied s id now hfl hfq hlt (by omega)
          rw [e1, e2]
          exact ⟨hl1, hl2, hn1, hn2, hdisj⟩
    · -- Case 2: card is in the waiting queue
      have hid_lib : id ∉ s.inLibrary := (findIdx_eq_none_iff _ _).mp hfl
      by_cases hlt : (q : Int) < getFreeSlots s
      · obtain ⟨e1, e2, _⟩ := handleRFID_promote s id now q hfl hfq hlt
        have hlib_lt : s.inLibrary.length < MAX_SLOTS := by
          have hq0 : (0 : Int) ≤ (q : Int) := Int.natCast_nonneg q
          simp only [getFreeSlots] at hlt
          omega
        rw [e1, e2]
        refine ⟨by simp; omega,
          le_trans (List.Sublist.length_le (List.erase_sublist _ _)) hl2,
          ?_, hn2.erase id, ?_⟩
        · exact hn1.append (List.nodup_singleton id)
            (fun x hx hmem => by simp at hmem; subst hmem; exact hid_lib hx)
        · intro x hx hmem
          rcases List.mem_append.mp hx with hx1 | hx2
          · exact hdisj x hx1 (List.mem_of_mem_erase hmem)
          · simp at hx2
            subst hx2
            exact ((hn2.mem_erase_iff).mp hmem).1 rfl
      · obtain ⟨e1, e2, _⟩ := handleRFID_already_queued s id now q hfl hfq hlt
        rw [e1, e2]
        exact ⟨hl1, hl2, hn1, hn2, hdisj⟩
  · -- Case 1: card is in the library
    obtain ⟨e1, e2, _⟩ := handleRFID_left s id now i hfl
    rw [e1, e2]
    refine ⟨le_trans (List.Sublist.length_le (List.erase_sublist _ _)) hl1,
      hl2, hn1.erase id, hn2, ?_⟩
    intro x hx
    exact hdisj x (List.mem_of_mem_erase hx)

theorem apiQueueLeave_preserves_inv (s : DeviceState) (uid : String)
    (h : Inv s) : Inv (apiQueueLeave s uid).2 := by
  obtain ⟨hl1, hl2, hn1, hn2, hdisj⟩ := h
  by_cases hu : 0 < uid.length
  · rcases hq : findIdx s.waitQueue uid with _ | q
    · rw [apiQueueLeave_notfound s uid hq]
      exact ⟨hl1, hl2, hn1, hn2, hdisj⟩
    · rw [apiQueueLeave_found s uid q hu hq]
      refine ⟨by simpa using hl1,
        le_trans (List.Sublist.length_le (List.erase_sublist _ _)) hl2,
        by simpa using hn1, hn2.erase uid, ?_⟩
      intro x hx hmem
      exact hdisj x (by simpa using hx) (List.mem_of_mem_erase hmem)
  · simp only [apiQueueLeave]
    rw [if_neg hu]
    exact ⟨hl1, hl2, hn1, hn2, hdisj⟩

theorem applyRequest_preserves_inv (s : DeviceState) (r : Request)
    (h : Inv s) : Inv (applyRequest s r) := by
  cases r with
  | scan id now => exact handleRFID_preserves_inv s id now h
  | leave uid => exact apiQueueLeave_preserves_inv s uid h

theorem foldl_requests_inv (evs : List Request) (s : DeviceState)
    (h : Inv s) : Inv (evs.foldl applyRequest s) := by
  induction evs generalizing s with
  | nil => exact h
  | cons e rest ih => exact ih _ (applyRequest_preserves_inv s e h)

theorem runRequests_inv (evs : List Request) : Inv (runRequests evs) :=
  foldl_requests_inv evs initState inv_init

theorem runScans_inv (scans : List (String × Nat)) : Inv (runScans scans) := by
  unfold runScans
  have : ∀ (l : List (String × Nat)) (s : DeviceState), Inv s →
      Inv (l.foldl (fun t (p : String × Nat) => handleRFID t p.1 p.2) s) := by
    intro l
    induction l with
    | nil => intro s h; exact h
    | cons e rest ih =>
      intro s h
      exact ih _ (handleRFID_preserves_inv s e.1 e.2 h)
  exact this scans initState inv_init

/-! ### Claim theorems -/

/-- Claim C1: for every scan event the outcome is decided by the ordered
dispatch of handleRFID: (1) an occupant is removed with outcome left; (2) a
queued card at 0-based position p is promoted iff p < freeSlots, else
already_queued with no change; (3) an unseen card enters directly iff
freeSlots > |queue|, else it is appended when the queue has capacity
(outcome queued) and denied with no change when the queue is full. -/
theorem scan_dispatch (s : DeviceState) (id : String) (now : Nat)
    (hn1 : s.inLibrary.Nodup) (hn2 : s.waitQueue.Nodup) :
    (id ∈ s.inLibrary →
      (handleRFID s id now).lastScanEvent = "left" ∧
      (handleRFID s id now).inLibrary = s.inLibrary.erase id ∧
      id ∉ (handleRFID s id now).inLibrary ∧
      (handleRFID s id now).waitQueue = s.waitQueue) ∧
    (id ∉ s.inLibrary → ∀ p : Nat, findIdx s.waitQueue id = some p →
      ((p : Int) < getFreeSlots s →
        (handleRFID s id now).lastScanEvent = "entered_from_queue" ∧
        (handleRFID s id now).waitQueue = s.waitQueue.erase id ∧
        id ∉ (handleRFID s id now).waitQueue ∧
        (handleRFID s id now).inLibrary = s.inLibrary ++ [id]) ∧
      (¬ (p : Int) < getFreeSlots s →
        (handleRFID s id now).lastScanEvent = "already_queued" ∧
        (handleRFID s id now).waitQueue = s.waitQueue ∧
        (handleRFID s id now).inLibrary = s.inLibrary)) ∧
    (id ∉ s.inLibrary → id ∉ s.waitQueue →
      ((s.waitQueue.length : Int) < getFreeSlots s →
        (handleRFID s id now).lastScanEvent = "entered" ∧
        (handleRFID s id now).inLibrary = s.inLibrary ++ [id] ∧
        (handleRFID s id now).waitQueue = s.waitQueue) ∧
      (¬ (s.waitQueue.length : Int) < getFreeSlots s →
        s.waitQueue.length < WAIT_CAPACITY →
        (handleRFID s id now).lastScanEvent = "queued" ∧
        (handleRFID s id now).waitQueue = s.waitQueue ++ [id] ∧
        (handleRFID s id now).inLibrary = s.inLibrary) ∧
      (¬ (s.waitQueue.length : Int) < getFreeSlots s →
        WAIT_CAPACITY ≤ s.waitQueue.length →
        (handleRFID s id now).lastScanEvent = "denied" ∧
        (handleRFID s id now).waitQueue = s.waitQueue ∧
        (handleRFID s id now).inLibrary = s.inLibrary)) := by
  refine ⟨?_, ?_, ?_⟩
  · intro hmem
    have hsome : (findIdx s.inLibrary id).isSome :=
      (findIdx_isSome_iff _ _).mpr hmem
    rcases hfl : findIdx s.inLibrary id with _ | i
    · rw [hfl] at hsome
      simp at hsome
    · obtain ⟨e1, e2, e3, _⟩ := handleRFID_left s id now i hfl
      refine ⟨e3, e1, ?_, e2⟩
      rw [e1]
      exact fun hmem2 => ((hn1.mem_erase_iff).mp hmem2).1 rfl
  · intro hnlib p hp
    have hfl : findIdx s.inLibrary id = none :=
      (findIdx_eq_none_iff _ _).mpr hnlib
    constructor
    · intro hlt
      obtain ⟨e1, e2, e3, _⟩ := handleRFID_promote s id now p hfl hp hlt
      refine ⟨e3, e2, ?_, e1⟩
      rw [e2]
      exact fun hm => ((hn2.mem_erase_iff).mp hm).1 rfl
    · intro hge
      obtain ⟨e1, e2, e3, _⟩ := handleRFID_already_queued s id now p hfl hp hge
      exact ⟨e3, e2, e1⟩
  · intro hnlib hnq
    have hfl := (findIdx_eq_none_iff s.inLibrary id).mpr hnlib
    have hfq := (findIdx_eq_none_iff s.waitQueue id).mpr hnq
    refine ⟨?_, ?_, ?_⟩
    · intro hlt
      obtain ⟨e1, e2, e3, _⟩ := handleRFID_entered s id now hfl hfq hlt
      exact ⟨e3, e1, e2⟩
    · intro hge hcap
      obtain ⟨e1, e2, e3, _⟩ := handleRFID_queued s id now hfl hfq hge hcap
      exact ⟨e3, e2, e1⟩
    · intro hge hcap
      obtain ⟨e1, e2, e3, _⟩ := handleRFID_denied s id now hfl hfq hge hcap
      exact ⟨e3, e2, e1⟩

/-- Witness for C1: in the concrete state with occupant AA and queue [BB],
scanning BB promotes it from the queue. -/
theorem scan_dispatch_witness :
    (handleRFID { initState with inLibrary := ["AA"], waitQueue := ["BB"] }
      "BB" 5).lastScanEvent = "entered_from_queue" := by
  have h := scan_dispatch
    { initState with inLibrary := ["AA"], waitQueue := ["BB"] } "BB" 5
    (by decide) (by decide)
  exact ((h.2.1 (by decide) 0 (by decide)).1 (by decide)).1

/-- Claim C2: for every sequence of scan events from the initial empty state,
occupancy stays within MAX_SLOTS, the queue stays within WAIT_CAPACITY, and
neither collection ever contains a duplicate identifier. -/
theorem scans_bounded_nodup (scans : List (String × Nat)) :
    (runScans scans).inLibrary.length ≤ MAX_SLOTS ∧
    (runScans scans).waitQueue.length ≤ WAIT_CAPACITY ∧
    (runScans scans).inLibrary.Nodup ∧
    (runScans scans).waitQueue.Nodup := by
  obtain ⟨h1, h2, h3, h4, _⟩ := runScans_inv scans
  exact ⟨h1, h2, h3, h4⟩

/-- Claim C9: in every state reachable by scan events and leave-queue
requests from the initial empty state, the occupancy set and the wait queue
are disjoint. -/
theorem scan_leave_disjoint (evs : List Request) (x : String)
    (hx : x ∈ (runRequests evs).inLibrary) :
    x ∉ (runRequests evs).waitQueue := by
  obtain ⟨_, _, _, _, hdisj⟩ := runRequests_inv evs
  exact hdisj x hx

/-- Witness for C9: after one scan, AA is inside and not in the queue. -/
theorem scan_leave_disjoint_witness :
    "AA" ∉ (runRequests [Request.scan "AA" 1]).waitQueue :=
  scan_leave_disjoint [Request.scan "AA" 1] "AA" (by decide)

theorem pump_unconfirmed_step (s : DeviceState) (now : Nat)
    (h : s.queueClaimConfirmed = false) :
    (pumpQueueReservation s now).waitQueue = s.waitQueue ∧
    (pumpQueueReservation s now).queueClaimConfirmed = false := by
  unfold pumpQueueReservation
  by_cases h1 : s.waitQueue.length = 0 ∨ getFreeSlots s ≤ 0
  · rw [if_pos h1]
    simp [clearClaim]
  · rw [if_neg h1]
    by_cases h2 : s.queueClaimUid ≠ s.waitQueue.headI
    · rw [if_pos h2]
      exact ⟨rfl, rfl⟩
    · rw [if_neg h2, if_pos (Or.inl (by simp [h]))]
      exact ⟨rfl, h⟩

theorem pumpTicks_unconfirmed (s : DeviceState) (ticks : List Nat)
    (h : s.queueClaimConfirmed = false) :
    (pumpTicks s ticks).waitQueue = s.waitQueue := by
  induction ticks generalizing s with
  | nil => rfl
  | cons t rest ih =>
    obtain ⟨e1, e2⟩ := pump_unconfirmed_step s t h
    unfold pumpTicks at ih ⊢
    rw [List.foldl_cons, ih (pumpQueueReservation s t) e2, e1]

/-- Claim C3: the periodic reservation tick clears any claim when the queue
is empty or no slot is free; replaces the claim by a fresh unconfirmed claim
for the new head (no deadline) when the head differs from the tracked id;
removes exactly the then-current head and clears the claim when a confirmed
claim with a running countdown is past its deadline; and an unconfirmed claim
never causes a queue removal no matter how many ticks elapse. -/
theorem reservation_tick (s : DeviceState) (now : Nat) :
    ((s.waitQueue.length = 0 ∨ getFreeSlots s ≤ 0) →
      (pumpQueueReservation s now).queueClaimUid = "" ∧
      (pumpQueueReservation s now).queueClaimStartMillis = 0 ∧
      (pumpQueueReservation s now).queueClaimConfirmed = false ∧
      (pumpQueueReservation s now).waitQueue = s.waitQueue) ∧
    (s.waitQueue.length ≠ 0 → ¬ getFreeSlots s ≤ 0 →
      s.queueClaimUid ≠ s.waitQueue.headI →
      (pumpQueueReservation s now).queueClaimUid = s.waitQueue.headI ∧
      (pumpQueueReservation s now).queueClaimStartMillis = 0 ∧
      (pumpQueueReservation s now).queueClaimConfirmed = false ∧
      (pumpQueueReservation s now).waitQueue = s.waitQueue) ∧
    (s.waitQueue.length ≠ 0 → ¬ getFreeSlots s ≤ 0 →
      s.queueClaimUid = s.waitQueue.headI →
      s.queueClaimConfirmed = true → s.queueClaimStartMillis ≠ 0 →
      claimDeadline s < now →
      (pumpQueueReservation s now).waitQueue = s.waitQueue.tail ∧
      (pumpQueueReservation s now).queueClaimUid = "" ∧
      (pumpQueueReservation s now).queueClaimStartMillis = 0 ∧
      (pumpQueueReservation s now).queueClaimConfirmed = false) ∧
    (∀ (t : DeviceState) (ticks : List Nat), t.queueClaimConfirmed = false →
      (pumpTicks t ticks).waitQueue = t.waitQueue) := by
  refine ⟨?_, ?_, ?_, fun t ticks h => pumpTicks_unconfirmed t ticks h⟩
  · intro h1
    unfold pumpQueueReservation
    rw [if_pos h1]
    simp [clearClaim]
  · intro h1 h2 h3
    unfold pumpQueueReservation
    rw [if_neg (by tauto), if_pos h3]
    exact ⟨rfl, rfl, rfl, rfl⟩
  · intro h1 h2 h3 h4 h5 h6
    unfold pumpQueueReservation
    rw [if_neg (by tauto), if_neg (by simp [h3]),
      if_neg (by simp [h4]; omega)]
    rw [if_pos ?cond]
    case cond =>
      refine ⟨by omega, ?_⟩
      unfold claimDeadline at h6
      omega
    unfold removeFromWaitByIndex
    rw [if_neg (by omega : ¬ s.waitQueue.length ≤ 0)]
    rcases hq : s.waitQueue with _ | ⟨a, rest⟩
    · rw [hq] at h1
      simp at h1
    · simp [clearClaim, List.eraseIdx]

/-- Concrete state for the C3 witness: occupant AA, queue [H, K], confirmed
claim for H whose countdown started at millis 1. -/
def confirmedClaimState : DeviceState :=
  { initState with
      inLibrary := ["AA"]
      waitQueue := ["H", "K"]
      queueClaimUid := "H"
      queueClaimConfirmed := true
      queueClaimStartMillis := 1 }

/-- Witness for C3: with queue [H, K], one occupant, a confirmed claim for H
started at 1 and tick time past the 15-minute deadline, the tick removes
exactly H and clears the claim. -/
theorem reservation_tick_witness :
    (pumpQueueReservation confirmedClaimState 1000000).waitQueue = ["K"] := by
  have h := reservation_tick confirmedClaimState 1000000
  exact (h.2.2.1 (by decide) (by decide) (by decide) (by decide) (by decide)
    (by decide)).1

/-- Claim C4: resetQueueClaimTimer succeeds iff the given id equals the
current queue head and a free slot exists; success marks the claim confirmed
and starts the CLAIM_TIMEOUT_MS (15-minute) countdown at now, so the deadline
is now + 15 minutes; failure leaves the state untouched. -/
theorem confirm_reservation (s : DeviceState) (uid : String) (now : Nat) :
    ((resetQueueClaimTimer s uid now).1 = true ↔
      s.waitQueue.length ≠ 0 ∧ s.waitQueue.headI = uid ∧
      0 < getFreeSlots s) ∧
    ((resetQueueClaimTimer s uid now).1 = true →
      (resetQueueClaimTimer s uid now).2.queueClaimConfirmed = true ∧
      (resetQueueClaimTimer s uid now).2.queueClaimStartMillis = now ∧
      (resetQueueClaimTimer s uid now).2.queueClaimUid = uid ∧
      claimDeadline (resetQueueClaimTimer s uid now).2 =
        now + CLAIM_TIMEOUT_MS ∧
      (resetQueueClaimTimer s uid now).2.waitQueue = s.waitQueue ∧
      (resetQueueClaimTimer s uid now).2.inLibrary = s.inLibrary) ∧
    ((resetQueueClaimTimer s uid now).1 = false →
      (resetQueueClaimTimer s uid now).2 = s) ∧
    CLAIM_TIMEOUT_MS = 15 * 60 * 1000 := by
  unfold resetQueueClaimTimer
  by_cases h1 : s.waitQueue.length = 0
  · rw [if_pos h1]
    refine ⟨by simp [h1], by simp, fun _ => rfl, rfl⟩
  · rw [if_neg h1]
    by_cases h2 : s.waitQueue.headI ≠ uid
    · rw [if_pos h2]
      refine ⟨by simp; tauto, by simp, fun _ => rfl, rfl⟩
    · rw [if_neg h2]
      push_neg at h2
      by_cases h3 : getFreeSlots s ≤ 0
      · rw [if_pos h3]
        refine ⟨by simp; intro _ _; omega, by simp, fun _ => rfl, rfl⟩
      · rw [if_neg h3]
        refine ⟨by simp [h1, h2]; omega, ?_, by simp, rfl⟩
        intro _
        refine ⟨rfl, rfl, rfl, rfl, rfl, rfl⟩

/-- Witness for C4: with queue [H] and a free slot, confirming H succeeds
and starts the countdown at 7. -/
theorem confirm_reservation_witness :
    (resetQueueClaimTimer { initState with waitQueue := ["H"] } "H"
      7).2.queueClaimStartMillis = 7 := by
  have h := confirm_reservation { initState with waitQueue := ["H"] } "H" 7
  exact (h.2.1 (by decide)).2.1

theorem length_pos_of_ne_empty (u : String) (h : u ≠ "") : 0 < u.length := by
  cases u with
  | mk data =>
    cases data with
    | nil => simp at h
    | cons a as => simp [String.length]

/-- Concrete state for the C5 counterexample: A heads the queue and holds the
confirmed reservation claim with a running countdown. -/
def claimHolderState : DeviceState :=
  { initState with
      waitQueue := ["A"]
      queueClaimUid := "A"
      queueClaimConfirmed := true
      queueClaimStartMillis := 5 }

/-- Counterexample for C5: the device leave handler removes A from the queue,
yet the reservation claim A holds is NOT cleared as part of the operation -
queueClaimUid is still A, the confirmation flag and countdown are still set. -/
theorem leave_claim_not_cleared :
    (apiQueueLeave claimHolderState "A").1 = true ∧
    (apiQueueLeave claimHolderState "A").2.waitQueue = [] ∧
    (apiQueueLeave claimHolderState "A").2.queueClaimUid = "A" ∧
    (apiQueueLeave claimHolderState "A").2.queueClaimConfirmed = true ∧
    (apiQueueLeave claimHolderState "A").2.queueClaimStartMillis = 5 := by
  decide

/-- Claim C5 (amended): the device leave handler removes a non-empty id from
the queue at its current position regardless of head/claim status, and
reports ok = false with no state change when the id is not in the queue; the
reservation claim fields are left untouched by the leave operation itself
(the stale claim is only discarded by a later reservation tick). -/
theorem leave_queue (s : DeviceState) (uid : String) :
    (uid ∈ s.waitQueue → uid ≠ "" →
      (apiQueueLeave s uid).1 = true ∧
      (apiQueueLeave s uid).2.waitQueue = s.waitQueue.erase uid ∧
      (apiQueueLeave s uid).2.inLibrary = s.inLibrary ∧
      (apiQueueLeave s uid).2.queueClaimUid = s.queueClaimUid ∧
      (apiQueueLeave s uid).2.queueClaimConfirmed = s.queueClaimConfirmed ∧
      (apiQueueLeave s uid).2.queueClaimStartMillis =
        s.queueClaimStartMillis) ∧
    (uid ∉ s.waitQueue →
      (apiQueueLeave s uid).1 = false ∧ (apiQueueLeave s uid).2 = s) := by
  constructor
  · intro hmem hne
    have hu : 0 < uid.length := length_pos_of_ne_empty uid hne
    have hsome : (findIdx s.waitQueue uid).isSome :=
      (findIdx_isSome_iff _ _).mpr hmem
    rcases hq : findIdx s.waitQueue uid with _ | q
    · rw [hq] at hsome
      simp at hsome
    · rw [apiQueueLeave_found s uid q hu hq]
      exact ⟨rfl, rfl, rfl, rfl, rfl, rfl⟩
  · intro hnmem
    have hq : findIdx s.waitQueue uid = none :=
      (findIdx_eq_none_iff _ _).mpr hnmem
    rw [apiQueueLeave_notfound s uid hq]
    exact ⟨rfl, rfl⟩

/-- Witness for the amended C5: in the concrete claim-holder state, leaving
removes A from the queue. -/
theorem leave_queue_witness :
    (apiQueueLeave claimHolderState "A").2.waitQueue =
      claimHolderState.waitQueue.erase "A" :=
  ((leave_queue claimHolderState "A").1 (by decide) (by decide)).2.1

/-! ### Dispense ledger lemmas -/

theorem record_mem (s : DeviceState) (id : String)
    (h : id ∈ s.dispensedLog) : recordDispenseForCard s id = (false, s) := by
  unfold recordDispenseForCard
  rw [if_pos]
  unfold hasDispensedBefore
  exact (findIdx_isSome_iff _ _).mpr h

theorem record_new (s : DeviceState) (id : String)
    (h : id ∉ s.dispensedLog) (hc : s.dispensedLog.length < DISPENSED_LOG_CAP) :
    recordDispenseForCard s id =
      (true, { s with dispensedLog := s.dispensedLog ++ [id] }) := by
  unfold recordDispenseForCard
  rw [if_neg, if_pos hc]
  unfold hasDispensedBefore
  rw [(findIdx_eq_none_iff _ _).mpr h]
  simp

theorem record_full (s : DeviceState) (id : String)
    (h : id ∉ s.dispensedLog)
    (hc : ¬ s.dispensedLog.length < DISPENSED_LOG_CAP) :
    recordDispenseForCard s id = (false, s) := by
  unfold recordDispenseForCard
  rw [if_neg, if_neg hc]
  unfold hasDispensedBefore
  rw [(findIdx_eq_none_iff _ _).mpr h]
  simp

theorem record_mem_mono (s : DeviceState) (id id' : String)
    (h : id ∈ s.dispensedLog) :
    id ∈ (recordDispenseForCard s id').2.dispensedLog := by
  by_cases h1 : id' ∈ s.dispensedLog
  · rw [record_mem s id' h1]
    exact h
  · by_cases h2 : s.dispensedLog.length < DISPENSED_LOG_CAP
    · rw [record_new s id' h1 h2]
      simp only [List.mem_append]
      exact Or.inl h
    · rw [record_full s id' h1 h2]
      exact h

theorem recordDispenses_mem_mono (ids : List String) (s : DeviceState)
    (id : String) (h : id ∈ s.dispensedLog) :
    id ∈ (recordDispenses s ids).dispensedLog := by
  induction ids generalizing s with
  | nil => exact h
  | cons a rest ih =>
    unfold recordDispenses
    rw [List.foldl_cons]
    exact ih (recordDispenseForCard s a).2 (record_mem_mono s id a h)

theorem record_length_bound (s : DeviceState) (id : String)
    (h : s.dispensedLog.length ≤ DISPENSED_LOG_CAP) :
    (recordDispenseForCard s id).2.dispensedLog.length ≤
      DISPENSED_LOG_CAP := by
  by_cases h1 : id ∈ s.dispensedLog
  · rw [record_mem s id h1]
    exact h
  · by_cases h2 : s.dispensedLog.length < DISPENSED_LOG_CAP
    · rw [record_new s id h1 h2]
      simp only [List.length_append, List.length_singleton]
      omega
    · rw [record_full s id h1 h2]
      exact h

theorem recordDispenses_length_bound (ids : List String) (s : DeviceState)
    (h : s.dispensedLog.length ≤ DISPENSED_LOG_CAP) :
    (recordDispenses s ids).dispensedLog.length ≤ DISPENSED_LOG_CAP := by
  induction ids generalizing s with
  | nil => exact h
  | cons a rest ih =>
    unfold recordDispenses
    rw [List.foldl_cons]
    exact ih (recordDispenseForCard s a).2 (record_length_bound s a h)

/-- The 33 distinct identifiers that fill the dispense ledger. -/
def fullLedgerIds : List String :=
  ["A", "B", "C", "D", "E", "F", "G", "H", "I", "J", "K", "L", "M",
   "N", "O", "P", "Q", "R", "S", "T", "U", "V", "W", "Y", "Z", "a",
   "b", "c", "d", "e", "f", "g", "h"]

/-- The run state after 33 distinct successful dispense recordings. -/
def fullLedgerState : DeviceState := recordDispenses initState fullLedgerIds

set_option maxRecDepth 8000 in
/-- Counterexample for C6: after a call sequence of 33 distinct recordings
within one run, the very FIRST call for the fresh identifier X returns false,
so RecordDispense does not return true exactly once per identifier. -/
theorem record_dispense_first_call_denied :
    "X" ∉ fullLedgerState.dispensedLog ∧
    fullLedgerState.dispensedLog.length = DISPENSED_LOG_CAP ∧
    (recordDispenseForCard fullLedgerState "X").1 = false ∧
    (recordDispenseForCard fullLedgerState "X").2 = fullLedgerState := by
  decide

/-- Claim C6 (amended): RecordDispense returns true AT MOST once per
identifier per run: it returns true on the first call for an identifier iff
the ledger still has capacity then, appending the identifier; every
subsequent call for the same identifier - after arbitrarily many interleaved
calls - returns false and leaves the ledger unchanged, so no duplicate entry
is ever appended. -/
theorem record_dispense_at_most_once (s : DeviceState) (id : String) :
    (id ∈ s.dispensedLog →
      (recordDispenseForCard s id).1 = false ∧
      (recordDispenseForCard s id).2 = s) ∧
    (id ∉ s.dispensedLog → s.dispensedLog.length < DISPENSED_LOG_CAP →
      (recordDispenseForCard s id).1 = true ∧
      (recordDispenseForCard s id).2.dispensedLog =
        s.dispensedLog ++ [id]) ∧
    (id ∉ s.dispensedLog → ¬ s.dispensedLog.length < DISPENSED_LOG_CAP →
      (recordDispenseForCard s id).1 = false ∧
      (recordDispenseForCard s id).2 = s) ∧
    (∀ ids : List String, id ∈ s.dispensedLog →
      (recordDispenseForCard (recordDispenses s ids) id).1 = false ∧
      (recordDispenseForCard (recordDispenses s ids) id).2 =
        recordDispenses s ids) := by
  refine ⟨?_, ?_, ?_, ?_⟩
  · intro h
    rw [record_mem s id h]
    exact ⟨rfl, rfl⟩
  · intro h hc
    rw [record_new s id h hc]
    exact ⟨rfl, rfl⟩
  · intro h hc
    rw [record_full s id h hc]
    exact ⟨rfl, rfl⟩
  · intro ids h
    have hmem := recordDispenses_mem_mono ids s id h
    rw [record_mem _ id hmem]
    exact ⟨rfl, rfl⟩

/-- Witness for the amended C6: after A was recorded, recording B and then
calling again for A returns false. -/
theorem record_dispense_at_most_once_witness :
    (recordDispenseForCard
      (recordDispenses (recordDispenses initState ["A"]) ["B"]) "A").1 =
      false :=
  ((record_dispense_at_most_once (recordDispenses initState ["A"])
    "A").2.2.2 ["B"] (by decide)).1

/-- Claim C10: the dispense ledger is bounded by
WAIT_CAPACITY + MAX_SLOTS + 20 = 33 entries; the guarded append never grows
the ledger past that bound over any call sequence, and once the ledger is
full recordDispenseForCard returns false even for a never-dispensed
identifier, recording nothing. -/
theorem dispense_ledger_bounded (s : DeviceState) (id : String) :
    (s.dispensedLog.length ≤ DISPENSED_LOG_CAP →
      (recordDispenseForCard s id).2.dispensedLog.length ≤
        DISPENSED_LOG_CAP) ∧
    (s.dispensedLog.length ≤ DISPENSED_LOG_CAP → ∀ ids : List String,
      (recordDispenses s ids).dispensedLog.length ≤ DISPENSED_LOG_CAP) ∧
    (s.dispensedLog.length = DISPENSED_LOG_CAP → id ∉ s.dispensedLog →
      (recordDispenseForCard s id).1 = false ∧
      (recordDispenseForCard s id).2 = s) ∧
    DISPENSED_LOG_CAP = WAIT_CAPACITY + MAX_SLOTS + 20 := by
  refine ⟨record_length_bound s id,
    fun h ids => recordDispenses_length_bound ids s h, ?_, rfl⟩
  intro h hmem
  rw [record_full s id hmem (by omega)]
  exact ⟨rfl, rfl⟩

set_option maxRecDepth 8000 in
/-- Witness for C10: in the concrete full-ledger run state, recording the
fresh identifier X returns false and records nothing. -/
theorem dispense_ledger_bounded_witness :
    (recordDispenseForCard fullLedgerState "X").1 = false ∧
    (recordDispenseForCard fullLedgerState "X").2 = fullLedgerState :=
  (dispense_ledger_bounded fullLedgerState "X").2.2.1 (by decide) (by decide)

/-- Claim C7: every emitted snapshot is a faithful projection of the
controller state at emission time: freeSlots = maxSlots - inCount,
queueCount is the length of the serialized queue list, the occupancy and
queue lists equal the current contents in order, the reported queue position
of the last scanned identifier is its current (1-based) position in the
queue or -1 when it is not queued, and the clock value t is monotone across
successive snapshots within one run. -/
theorem snapshot_faithful (s : DeviceState) (n1 n2 : Nat) (h12 : n1 ≤ n2) :
    (buildStateJson s n1).freeSlots =
      ((buildStateJson s n1).maxSlots : Int) -
        ((buildStateJson s n1).inCount : Int) ∧
    (buildStateJson s n1).inCount = s.inLibrary.length ∧
    (buildStateJson s n1).maxSlots = MAX_SLOTS ∧
    (buildStateJson s n1).queueCount =
      (buildStateJson s n1).queueList.length ∧
    (buildStateJson s n1).inList = s.inLibrary ∧
    (buildStateJson s n1).queueList = s.waitQueue ∧
    (buildStateJson s n1).lastScannedCard = s.lastScannedCard ∧
    (buildStateJson s n1).lastScanEvent = s.lastScanEvent ∧
    (buildStateJson s n1).lastScanTime = s.lastScanTimestamp ∧
    ((buildStateJson s n1).lastCardQueuePosition = -1 ↔
      s.lastScannedCard ∉ s.waitQueue) ∧
    (∀ i : Nat, findIdx s.waitQueue s.lastScannedCard = some i →
      (buildStateJson s n1).lastCardQueuePosition = (i : Int) + 1) ∧
    (buildStateJson s n1).t ≤ (buildStateJson s n2).t := by
  refine ⟨rfl, rfl, rfl, rfl, rfl, rfl, rfl, rfl, rfl, ?_, ?_, h12⟩
  · simp only [buildStateJson, getCardQueuePosition]
    rcases hq : findIdx s.waitQueue s.lastScannedCard with _ | i
    · simp only [hq]
      simp [(findIdx_eq_none_iff _ _).mp hq]
    · simp only [hq]
      have hmem := findIdx_some_mem _ _ _ hq
      constructor
      · intro h
        exact absurd h (by omega)
      · intro h
        exact absurd hmem h
  · intro i hi
    simp only [buildStateJson, getCardQueuePosition, hi]

/-- Witness for C7: the clock values of two successive snapshots of the
initial state are nondecreasing. -/
theorem snapshot_faithful_witness :
    (buildStateJson initState 3).t ≤ (buildStateJson initState 8).t :=
  (snapshot_faithful initState 3 8 (by decide)).2.2.2.2.2.2.2.2.2.2.2

/-- Claim C8 (spec-modelled StreamManager): when two consecutively received
snapshots carry the same scan-outcome timestamp, the second delivery never
emits another scan event - it leaves the manager unchanged - and when the
timestamp was new to the manager exactly the first delivery emits, so
exactly one scan event is emitted for that timestamp. -/
theorem duplicate_snapshot_one_event (m : ManagerState) (s1 s2 : Snapshot)
    (hts : s2.lastScanTime = s1.lastScanTime) :
    (processSnapshot (processSnapshot m s1).1 s2).2 = false ∧
    (processSnapshot (processSnapshot m s1).1 s2).1 =
      (processSnapshot m s1).1 ∧
    (m.lastSeenScanTs ≠ some s1.lastScanTime →
      (processSnapshot m s1).2 = true) := by
  by_cases h : m.lastSeenScanTs = some s1.lastScanTime
  · rw [show processSnapshot m s1 = (m, false) by
      simp [processSnapshot, h]]
    simp [processSnapshot, h, hts]
  · rw [show processSnapshot m s1 =
      ({ lastSeenScanTs := some s1.lastScanTime }, true) by
      simp [processSnapshot, h]]
    simp [processSnapshot, hts]

/-- Witness for C8: a fresh manager that receives the same initial snapshot
twice does not emit on the duplicate. -/
theorem duplicate_snapshot_one_event_witness :
    (processSnapshot
      (processSnapshot ⟨none⟩ (buildStateJson initState 5)).1
      (buildStateJson initState 5)).2 = false :=
  (duplicate_snapshot_one_event ⟨none⟩ (buildStateJson initState 5)
    (buildStateJson initState 5) rfl).1

end SmartQueue
